import Mathlib

/-
Verification of the product/inventory data model of the Advance Inventory
Management System (src/main.py): product variants, stock mutation, the
inventory collection manager, expiry-based pruning, and the JSON
persistence codec.  Python objects are embedded shallowly: mutation
becomes explicit value passing, raised exceptions become `Except` errors,
and the ambient clock (`datetime.datetime.now()`) becomes an explicit
`now` parameter.
-/

set_option autoImplicit false

namespace InvSys

/-- Calendar date as held by a Python `datetime.datetime(year, month, day)`
object (time-of-day components zero). -/
structure Date where
  year : Int
  month : Int
  day : Int
deriving DecidableEq, Repr

/-- Strict `<` on dates, matching `datetime`'s lexicographic comparison of
(year, month, day). -/
def Date.lt (a b : Date) : Bool :=
  decide (a.year < b.year) ||
    (a.year == b.year &&
      (decide (a.month < b.month) || (a.month == b.month && decide (a.day < b.day))))

/-- Gregorian leap-year rule used by `datetime` to validate the day. -/
def isLeap (y : Int) : Bool :=
  (y % 4 == 0 && y % 100 != 0) || y % 400 == 0

/-- Number of days of month `m` in year `y`, as validated by `datetime`. -/
def daysInMonth (y m : Int) : Int :=
  if m == 2 then (if isLeap y then 29 else 28)
  else if m == 4 || m == 6 || m == 9 || m == 11 then 30
  else 31

/-- The `datetime.datetime(year, month, day)` constructor: `some` date when
the components are in range, `none` for the `ValueError` it raises
otherwise (`MINYEAR = 1`, `MAXYEAR = 9999`). -/
def mkDatetime (y m d : Int) : Option Date :=
  if 1 ≤ y ∧ y ≤ 9999 ∧ 1 ≤ m ∧ m ≤ 12 ∧ 1 ≤ d ∧ d ≤ daysInMonth y m then
    some ⟨y, m, d⟩
  else
    none

/-- Numeric value of a decimal digit character. -/
def digitVal (c : Char) : Nat := c.toNat - 48

/-- Continuation of Python `int()` digit parsing after the first digit:
further digits, with single underscores allowed between digits only. -/
def pyDigits : Nat → List Char → Option Nat
  | acc, [] => some acc
  | _, ['_'] => none
  | acc, '_' :: c :: cs =>
      if c.isDigit then pyDigits (acc * 10 + digitVal c) cs else none
  | acc, c :: cs =>
      if c.isDigit then pyDigits (acc * 10 + digitVal c) cs else none

/-- Python `int()` digit-string parsing: nonempty, starts with a digit. -/
def pyDigitsStart : List Char → Option Nat
  | c :: cs => if c.isDigit then pyDigits (digitVal c) cs else none
  | [] => none

/-- Strip leading and trailing whitespace, as Python `int()` does to its
string argument. -/
def pyStrip (cs : List Char) : List Char :=
  ((cs.dropWhile Char.isWhitespace).reverse.dropWhile Char.isWhitespace).reverse

/-- Python `int(s)` on a character list: optional sign, then digits with
single underscores between digits; `none` for the `ValueError` raised on
any other shape. -/
def pyIntOfChars : List Char → Option Int
  | '+' :: rest => (pyDigitsStart rest).map Int.ofNat
  | '-' :: rest => (pyDigitsStart rest).map (fun n => -(n : Int))
  | rest => (pyDigitsStart rest).map Int.ofNat

/-- Python `int(s)` on a string. -/
def pyInt (s : String) : Option Int :=
  pyIntOfChars (pyStrip s.toList)

/-- Python `str.split('/')`: splits on every `/`, keeping empty pieces,
so the empty string yields `[""]` and `"a//b"` yields
`["a", "", "b"]`. -/
def splitOnSlash : List Char → List (List Char)
  | [] => [[]]
  | c :: cs =>
    if c = '/' then [] :: splitOnSlash cs
    else
      match splitOnSlash cs with
      | [] => [[c]]
      | p :: ps => (c :: p) :: ps

/-- The `try` body shared by `Grocery._parse_date` and the inline date
parse in `Inventory.remove_expired_products`: split on `/`, convert the
three parts with `int()`, call `datetime.datetime(year, month, day)`;
`none` is the `ValueError` path. -/
def parseDateCore (dateStr : String) : Option Date :=
  match (splitOnSlash dateStr.toList).map (fun p => pyIntOfChars (pyStrip p)) with
  | [some d, some m, some y] => mkDatetime y m d
  | _ => none

/-- `Grocery._parse_date(date_str)` (and the identical inline parse in
`remove_expired_products`): on any `ValueError` it prints a warning and
returns the current clock date, passed here explicitly as `now`. -/
def parseDate (dateStr : String) (now : Date) : Date :=
  match parseDateCore dateStr with
  | some dt => dt
  | none => now

/-- Modelled from the spec: the strict `DD/MM/YYYY` parser the spec asks
for, which fails explicitly (`InvalidDateFormat`, here `none`) on
malformed input instead of substituting another date.  Used only to be
compared with the source's `parseDate`. -/
def parseDateStrict (dateStr : String) : Option Date :=
  parseDateCore dateStr

/-- `InsufficientStockError(product_name, requested, available)`: the
exception payload raised when a sell exceeds the available stock. -/
structure InsufficientStockError where
  productName : String
  requested : Int
  available : Int
deriving DecidableEq, Repr

/-- `InvalidProductDataError(reason)`: the exception payload raised while
loading a malformed product record. -/
structure InvalidProductDataError where
  reason : String
deriving DecidableEq, Repr

/-- The closed hierarchy of `Product` subclasses.  Common fields
(`_product_id`, `_name`, `_price`, `_quantity_in_stock`) are repeated in
each variant; `Grocery` additionally stores both the raw
`expiry_date_str` and the `expiry_date` its constructor parsed from it. -/
inductive Product where
  | electronics (productId : Int) (name : String) (price : Int) (quantityInStock : Int)
      (warrantyYears : Int) (brand : String)
  | grocery (productId : Int) (name : String) (price : Int) (quantityInStock : Int)
      (expiryDateStr : String) (expiryDate : Date)
  | clothing (productId : Int) (name : String) (price : Int) (quantityInStock : Int)
      (size : String) (material : String)
deriving DecidableEq, Repr

/-- The `Grocery.__init__` constructor: stores the raw string and the date
`_parse_date` produced from it (with `now` the clock the fallback reads). -/
def mkGrocery (productId : Int) (name : String) (price : Int) (quantityInStock : Int)
    (expiryDate : String) (now : Date) : Product :=
  .grocery productId name price quantityInStock expiryDate (parseDate expiryDate now)

/-- The `_product_id` attribute. -/
def Product.productId : Product → Int
  | .electronics pid _ _ _ _ _ => pid
  | .grocery pid _ _ _ _ _ => pid
  | .clothing pid _ _ _ _ _ => pid

/-- The `_name` attribute. -/
def Product.name : Product → String
  | .electronics _ nm _ _ _ _ => nm
  | .grocery _ nm _ _ _ _ => nm
  | .clothing _ nm _ _ _ _ => nm

/-- The `_price` attribute. -/
def Product.price : Product → Int
  | .electronics _ _ pr _ _ _ => pr
  | .grocery _ _ pr _ _ _ => pr
  | .clothing _ _ pr _ _ _ => pr

/-- The `_quantity_in_stock` attribute. -/
def Product.quantityInStock : Product → Int
  | .electronics _ _ _ q _ _ => q
  | .grocery _ _ _ q _ _ => q
  | .clothing _ _ _ q _ _ => q

/-- `restock(self, amount)`: each of `Electronics`, `Grocery` and
`Clothing` defines it identically as
`self._quantity_in_stock += amount`, with no validation of `amount`. -/
def Product.restock : Product → Int → Product
  | .electronics pid nm pr q w b, amount => .electronics pid nm pr (q + amount) w b
  | .grocery pid nm pr q eds ed, amount => .grocery pid nm pr (q + amount) eds ed
  | .clothing pid nm pr q sz mt, amount => .clothing pid nm pr (q + amount) sz mt

/-- `sell(self, quantity)`: each of `Electronics`, `Grocery` and
`Clothing` defines it identically: if `_quantity_in_stock >= quantity`
decrement, else raise `InsufficientStockError(_name, quantity,
_quantity_in_stock)` leaving the object unchanged. -/
def Product.sell : Product → Int → Except InsufficientStockError Product
  | .electronics pid nm pr q w b, quantity =>
      if q ≥ quantity then .ok (.electronics pid nm pr (q - quantity) w b)
      else .error ⟨nm, quantity, q⟩
  | .grocery pid nm pr q eds ed, quantity =>
      if q ≥ quantity then .ok (.grocery pid nm pr (q - quantity) eds ed)
      else .error ⟨nm, quantity, q⟩
  | .clothing pid nm pr q sz mt, quantity =>
      if q ≥ quantity then .ok (.clothing pid nm pr (q - quantity) sz mt)
      else .error ⟨nm, quantity, q⟩

/-- The `isinstance(product, Grocery)` test. -/
def Product.isGrocery : Product → Bool
  | .grocery _ _ _ _ _ _ => true
  | _ => false

/-- `Grocery.is_expired(current_date)`: `expiry_date < current_date`.
Only ever called on `Grocery` objects (behind an `isinstance` guard);
on the other variants this model returns `false`. -/
def Product.is_expired (p : Product) (currentDate : Date) : Bool :=
  match p with
  | .grocery _ _ _ _ _ ed => Date.lt ed currentDate
  | _ => false

/-- Same variant and identical persisted fields: id, name, price, stock
and the variant-specific fields (`warranty_years`/`brand`,
`expiry_date` string, `size`/`material`).  The parsed `expiryDate` of a
`Grocery` is derived, not persisted, so it is not compared. -/
def Product.sameFields : Product → Product → Bool
  | .electronics pid nm pr q w b, .electronics pid' nm' pr' q' w' b' =>
      pid == pid' && nm == nm' && pr == pr' && q == q' && w == w' && b == b'
  | .grocery pid nm pr q eds _, .grocery pid' nm' pr' q' eds' _ =>
      pid == pid' && nm == nm' && pr == pr' && q == q' && eds == eds'
  | .clothing pid nm pr q sz mt, .clothing pid' nm' pr' q' sz' mt' =>
      pid == pid' && nm == nm' && pr == pr' && q == q' && sz == sz' && mt == mt'
  | _, _ => false

/-- Same variant and identical fields except possibly
`_quantity_in_stock` (here the parsed `expiryDate` is compared too). -/
def Product.eqExceptStock : Product → Product → Bool
  | .electronics pid nm pr _ w b, .electronics pid' nm' pr' _ w' b' =>
      pid == pid' && nm == nm' && pr == pr' && w == w' && b == b'
  | .grocery pid nm pr _ eds ed, .grocery pid' nm' pr' _ eds' ed' =>
      pid == pid' && nm == nm' && pr == pr' && eds == eds' && ed == ed'
  | .clothing pid nm pr _ sz mt, .clothing pid' nm' pr' _ sz' mt' =>
      pid == pid' && nm == nm' && pr == pr' && sz == sz' && mt == mt'
  | _, _ => false

/-- The `Inventory` collection manager: `_products`, an ordered list. -/
structure Inventory where
  products : List Product
deriving DecidableEq, Repr

/-- `Inventory.add_product(product)`: `self._products.append(product)`.
The source performs no duplicate-id check before appending. -/
def Inventory.add_product (inv : Inventory) (product : Product) : Inventory :=
  ⟨inv.products ++ [product]⟩

/-- `Inventory.remove_product(product_id)`: keeps the products whose
`_product_id` differs, and returns `True` exactly when the list got
shorter. -/
def Inventory.remove_product (inv : Inventory) (productId : Int) : Inventory × Bool :=
  let remaining := inv.products.filter (fun p => p.productId != productId)
  (⟨remaining⟩, decide (remaining.length < inv.products.length))

/-- `Inventory.remove_expired_products(current_date_str)`: parses the
reference date with the same try/except-`ValueError` fallback to the
clock (`now`), collects the `Grocery` products whose `is_expired` is
true, removes each collected object from `_products`
(`list.remove` removes by object identity, so exactly the collected
occurrences disappear, which the two filters below express), and
returns the removed items. -/
def Inventory.remove_expired_products (inv : Inventory) (currentDateStr : String)
    (now : Date) : Inventory × List Product :=
  let currentDate := parseDate currentDateStr now
  let expired := inv.products.filter (fun p => p.isGrocery && p.is_expired currentDate)
  let remaining := inv.products.filter (fun p => !(p.isGrocery && p.is_expired currentDate))
  (⟨remaining⟩, expired)

/-- One element of the persisted JSON array: a JSON object whose keys,
when present, hold values of the wire types the save format writes
(`product_id: int`, `name: str`, `price: int`, `quantity_in_stock: int`,
`type: str`, plus variant fields).  An absent key is `none`; the load
code checks only key presence (`field not in product_data`), never value
types. -/
structure Entry where
  product_id : Option Int := none
  name : Option String := none
  price : Option Int := none
  quantity_in_stock : Option Int := none
  type : Option String := none
  warranty_years : Option Int := none
  brand : Option String := none
  expiry_date : Option String := none
  size : Option String := none
  material : Option String := none
deriving DecidableEq, Repr

/-- The serialization of one product inside `Inventory.save_to_file` (and
the identical `save_inventory`): the four common attributes, the class
name as `type`, then the variant-specific attributes. -/
def Product.toEntry : Product → Entry
  | .electronics pid nm pr q w b =>
      { product_id := some pid, name := some nm, price := some pr,
        quantity_in_stock := some q, type := some "Electronics",
        warranty_years := some w, brand := some b }
  | .grocery pid nm pr q eds _ =>
      { product_id := some pid, name := some nm, price := some pr,
        quantity_in_stock := some q, type := some "Grocery",
        expiry_date := some eds }
  | .clothing pid nm pr q sz mt =>
      { product_id := some pid, name := some nm, price := some pr,
        quantity_in_stock := some q, type := some "Clothing",
        size := some sz, material := some mt }

/-- `Inventory.save_to_file(filename)`: the JSON array written to the
file, one object per product in insertion order; an empty inventory
writes the empty array. -/
def Inventory.save_to_file (inv : Inventory) : List Entry :=
  inv.products.map Product.toEntry

/-- The per-element body of the `load_inventory` loop: check presence of
the five required fields in order, then dispatch on the `type` tag,
checking the variant-specific fields; any failure raises
`InvalidProductDataError`.  Reconstructing a `Grocery` re-parses its
expiry string, so the clock `now` is threaded in. -/
def loadEntry (now : Date) (e : Entry) : Except InvalidProductDataError Product :=
  match e.product_id with
  | none => .error ⟨"Missing required field: product_id"⟩
  | some pid =>
  match e.name with
  | none => .error ⟨"Missing required field: name"⟩
  | some nm =>
  match e.price with
  | none => .error ⟨"Missing required field: price"⟩
  | some pr =>
  match e.quantity_in_stock with
  | none => .error ⟨"Missing required field: quantity_in_stock"⟩
  | some q =>
  match e.type with
  | none => .error ⟨"Missing required field: type"⟩
  | some productType =>
  if productType = "Electronics" then
    match e.warranty_years, e.brand with
    | some w, some b => .ok (.electronics pid nm pr q w b)
    | _, _ => .error ⟨"Missing Electronics-specific fields"⟩
  else if productType = "Grocery" then
    match e.expiry_date with
    | some eds => .ok (mkGrocery pid nm pr q eds now)
    | none => .error ⟨"Missing Grocery-specific fields"⟩
  else if productType = "Clothing" then
    match e.size, e.material with
    | some sz, some mt => .ok (.clothing pid nm pr q sz mt)
    | _, _ => .error ⟨"Missing Clothing-specific fields"⟩
  else .error ⟨"Unknown product type: " ++ productType⟩

/-- The `load_inventory` loop over the decoded array: each element that
raises `InvalidProductDataError` is reported and skipped
(`continue`), every successfully rebuilt product is appended in order. -/
def load_entries (now : Date) (es : List Entry) : Inventory :=
  ⟨es.filterMap (fun e => (loadEntry now e).toOption)⟩

/-- `load_inventory()` on a file that exists: `doc` is the result of
`json.load` (`none` for a `json.JSONDecodeError`, which is reported and
yields `Inventory([])`). -/
def load_inventory (now : Date) (doc : Option (List Entry)) : Inventory :=
  match doc with
  | none => ⟨[]⟩
  | some es => load_entries now es

/-- An element the load contract says must be skipped: one of the five
required fields is absent, or the `type` tag is present but its
variant-specific fields are incomplete, or the tag is unrecognized. -/
def entryMalformed (e : Entry) : Bool :=
  e.product_id.isNone || e.name.isNone || e.price.isNone ||
  e.quantity_in_stock.isNone ||
  match e.type with
  | none => true
  | some t =>
    if t = "Electronics" then e.warranty_years.isNone || e.brand.isNone
    else if t = "Grocery" then e.expiry_date.isNone
    else if t = "Clothing" then e.size.isNone || e.material.isNone
    else true

/-- What reloading a saved product rebuilds: identical object, except
that a `Grocery`'s derived `expiry_date` is re-parsed from its persisted
string against the load-time clock. -/
def Product.reload (now : Date) : Product → Product
  | .grocery pid nm pr q eds _ => .grocery pid nm pr q eds (parseDate eds now)
  | p => p

/-- Sample persisted record: a complete Electronics object. -/
def entryLaptop : Entry :=
  Product.toEntry (.electronics 1 "laptop" 1000 5 2 "acme")

/-- Sample persisted record from the spec's load scenario: an Electronics
record missing `brand`. -/
def entryRadioNoBrand : Entry :=
  { product_id := some 2, name := some "radio", price := some 5,
    quantity_in_stock := some 1, type := some "Electronics",
    warranty_years := some 1 }

/-- Sample inventory from the spec's expiry scenario: one `Grocery` with
id 2 and expiry `01/01/2020`, built under a clock of 1 Jan 2024. -/
def invMilk : Inventory :=
  ⟨[mkGrocery 2 "milk" 5 3 "01/01/2020" ⟨2024, 1, 1⟩]⟩

/-- C1: the spec says `addProduct(p)` fails with `DuplicateProductId`
when an existing product shares `p.id` and leaves the inventory
unchanged; the source's `add_product` appends unconditionally, so adding
a second product with id 1 grows the inventory to two products both
carrying id 1, and `DuplicateProductIDError`, though declared exactly
for this case, is never raised. -/
theorem C1_duplicate_id_appended :
    (Inventory.add_product ⟨[Product.electronics 1 "laptop" 1000 5 2 "acme"]⟩
        (Product.clothing 1 "shirt" 20 10 "M" "cotton")).products
      = [Product.electronics 1 "laptop" 1000 5 2 "acme",
         Product.clothing 1 "shirt" 20 10 "M" "cotton"]
    ∧ ((Inventory.add_product ⟨[Product.electronics 1 "laptop" 1000 5 2 "acme"]⟩
        (Product.clothing 1 "shirt" 20 10 "M" "cotton")).products.filter
          (fun p => p.productId == 1)).length = 2 := by
  decide

/-- C2 counterexample: on an inventory holding two products that share
id 1 (reachable, since `add_product` never rejects duplicates),
`remove_product 1` removes both in a single call, not "exactly the
first" match. -/
theorem C2_counterexample :
    (Inventory.remove_product ⟨[Product.electronics 1 "tv" 5 3 1 "acme",
        Product.clothing 1 "shirt" 2 4 "M" "wool"]⟩ 1).1.products = []
    ∧ (Inventory.remove_product ⟨[Product.electronics 1 "tv" 5 3 1 "acme",
        Product.clothing 1 "shirt" 2 4 "M" "wool"]⟩ 1).2 = true := by
  decide

/-- C2 (amended): `remove_product id` removes every product whose id
matches — hence exactly the first match whenever at most one product
carries the id — keeps all other products in their original order, and
returns true iff a match was found, without raising on not-found. -/
theorem C2_remove_all_matching (inv : Inventory) (pid : Int) :
    (inv.remove_product pid).1.products
        = inv.products.filter (fun p => p.productId != pid)
    ∧ ((inv.remove_product pid).2 = true ↔ ∃ p ∈ inv.products, p.productId = pid) := by
  refine ⟨rfl, ?_⟩
  simp only [Inventory.remove_product, decide_eq_true_iff,
    List.length_filter_lt_length_iff_exists]
  constructor
  · rintro ⟨p, hp, hne⟩
    exact ⟨p, hp, by simpa [bne] using hne⟩
  · rintro ⟨p, hp, heq⟩
    exact ⟨p, hp, by simp [bne, heq]⟩

/-- C3 counterexample: on a malformed date string, `_parse_date` does
not fail; it substitutes the current clock date, so the result varies
with the clock and the function is neither pure in its string argument
alone nor an explicit `InvalidDateFormat` failure. -/
theorem C3_counterexample :
    parseDate "13 May 2025" ⟨2020, 1, 1⟩ = ⟨2020, 1, 1⟩
    ∧ parseDate "13 May 2025" ⟨2021, 6, 7⟩ = ⟨2021, 6, 7⟩
    ∧ (⟨2020, 1, 1⟩ : Date) ≠ ⟨2021, 6, 7⟩ := by
  decide

/-- C3 (amended): `_parse_date` agrees with the spec's strict parser on
every well-formed `DD/MM/YYYY` string (and is then clock-independent),
but on malformed input it silently substitutes the current clock date
instead of failing with `InvalidDateFormat`. -/
theorem C3_fallback_semantics (s : String) (now : Date) :
    parseDate s now = (parseDateStrict s).getD now := by
  unfold parseDate parseDateStrict
  cases parseDateCore s <;> rfl

/-- C4: `sell(q)` with `q` above the available stock raises
`InsufficientStockError` carrying the product's name, the requested
quantity and the current stock, leaving the product unchanged (the
exception is raised before any mutation); with enough stock it
decrements `_quantity_in_stock` by exactly `q`, touching no other
field. -/
theorem C4_sell_contract (p : Product) (q : Int) :
    (q > p.quantityInStock → p.sell q = .error ⟨p.name, q, p.quantityInStock⟩)
    ∧ (p.quantityInStock ≥ q → ∃ p', p.sell q = .ok p'
        ∧ p'.quantityInStock = p.quantityInStock - q
        ∧ p.eqExceptStock p' = true) := by
  cases p with
  | electronics pid nm pr q0 w b =>
    refine ⟨fun h => ?_, fun h => ?_⟩ <;> simp only [Product.quantityInStock] at h
    · simp only [Product.sell, Product.name, Product.quantityInStock]
      rw [if_neg (by omega)]
    · refine ⟨.electronics pid nm pr (q0 - q) w b, ?_, ?_, ?_⟩
      · simp only [Product.sell]; rw [if_pos (by omega)]
      · simp [Product.quantityInStock]
      · simp [Product.eqExceptStock]
  | grocery pid nm pr q0 eds ed =>
    refine ⟨fun h => ?_, fun h => ?_⟩ <;> simp only [Product.quantityInStock] at h
    · simp only [Product.sell, Product.name, Product.quantityInStock]
      rw [if_neg (by omega)]
    · refine ⟨.grocery pid nm pr (q0 - q) eds ed, ?_, ?_, ?_⟩
      · simp only [Product.sell]; rw [if_pos (by omega)]
      · simp [Product.quantityInStock]
      · simp [Product.eqExceptStock]
  | clothing pid nm pr q0 sz mt =>
    refine ⟨fun h => ?_, fun h => ?_⟩ <;> simp only [Product.quantityInStock] at h
    · simp only [Product.sell, Product.name, Product.quantityInStock]
      rw [if_neg (by omega)]
    · refine ⟨.clothing pid nm pr (q0 - q) sz mt, ?_, ?_, ?_⟩
      · simp only [Product.sell]; rw [if_pos (by omega)]
      · simp [Product.quantityInStock]
      · simp [Product.eqExceptStock]

/-- C4 witness: the spec's scenario — stock 10, request 15 — reports
`InsufficientStock` with available 10; a request of 3 succeeds and
leaves stock 7. -/
theorem C4_sell_contract_witness :
    ((Product.electronics 1 "tv" 100 10 1 "acme").sell 15
        = .error ⟨"tv", 15, 10⟩)
    ∧ (∃ p', (Product.electronics 1 "tv" 100 10 1 "acme").sell 3 = .ok p'
        ∧ p'.quantityInStock = 10 - 3
        ∧ (Product.electronics 1 "tv" 100 10 1 "acme").eqExceptStock p' = true) :=
  ⟨(C4_sell_contract (Product.electronics 1 "tv" 100 10 1 "acme") 15).1 (by decide),
   (C4_sell_contract (Product.electronics 1 "tv" 100 10 1 "acme") 3).2 (by decide)⟩

/-- Two inventories with the same product list are equal. -/
theorem Inventory.eq_of_products {a b : Inventory} (h : a.products = b.products) : a = b := by
  cases a
  cases b
  cases h
  rfl

/-- Loading the record just saved for a product succeeds and rebuilds
`Product.reload now` of it. -/
theorem loadEntry_toEntry (now : Date) (p : Product) :
    loadEntry now p.toEntry = .ok (p.reload now) := by
  cases p <;> rfl

/-- `Product.reload` keeps every persisted field. -/
theorem sameFields_reload (now : Date) (p : Product) :
    p.sameFields (p.reload now) = true := by
  cases p <;> simp [Product.reload, Product.sameFields]

/-- C5: saving and reloading any inventory reproduces, in the same
order, a product of the same variant with identical id, name, price,
stock and variant-specific persisted fields for every product; an empty
inventory serializes to the empty array.  (Only a `Grocery`'s derived
`expiry_date` object is re-parsed from the persisted string at load
time; all persisted fields round-trip.) -/
theorem C5_roundtrip (inv : Inventory) (now : Date) :
    List.Forall₂ (fun a b => Product.sameFields a b = true) inv.products
      (load_inventory now (some inv.save_to_file)).products
    ∧ Inventory.save_to_file ⟨[]⟩ = [] := by
  refine ⟨?_, rfl⟩
  obtain ⟨l⟩ := inv
  simp only [load_inventory, Inventory.save_to_file, load_entries]
  induction l with
  | nil => exact .nil
  | cons p l ih =>
    simp only [List.map_cons, List.filterMap_cons, loadEntry_toEntry, Except.toOption]
    exact .cons (sameFields_reload now p) ih

/-- A record the load contract marks malformed (missing required or
variant-specific field, or unrecognized type tag) makes the loop body
raise `InvalidProductDataError`. -/
theorem loadEntry_malformed (now : Date) (e : Entry)
    (h : entryMalformed e = true) :
    ∃ r, loadEntry now e = .error r := by
  obtain ⟨pid, nm, pr, q, ty, w, b, ed, sz, mt⟩ := e
  simp only [entryMalformed] at h
  cases pid with
  | none => exact ⟨_, rfl⟩
  | some pid =>
  cases nm with
  | none => exact ⟨_, rfl⟩
  | some nm =>
  cases pr with
  | none => exact ⟨_, rfl⟩
  | some pr =>
  cases q with
  | none => exact ⟨_, rfl⟩
  | some q =>
  cases ty with
  | none => exact ⟨_, rfl⟩
  | some t =>
  simp only [Option.isNone_some, Bool.false_or] at h
  by_cases hE : t = "Electronics"
  · subst hE
    simp only [if_pos rfl] at h
    simp only [loadEntry, if_pos rfl]
    cases w <;> cases b <;> simp_all
  · by_cases hG : t = "Grocery"
    · subst hG
      rw [if_neg (by decide), if_pos rfl] at h
      simp only [loadEntry, if_neg hE, if_pos rfl]
      cases ed <;> simp_all
    · by_cases hC : t = "Clothing"
      · subst hC
        rw [if_neg (by decide), if_neg (by decide), if_pos rfl] at h
        simp only [loadEntry, if_neg hE, if_neg hG, if_pos rfl]
        cases sz <;> cases mt <;> simp_all
      · simp only [loadEntry, if_neg hE, if_neg hG, if_neg hC]
        exact ⟨_, rfl⟩

/-- C6: each persisted record is validated for the five common fields
and the variant-specific fields its `type` tag requires; a record
failing validation, or carrying an unrecognized tag, is reported
(`InvalidProductDataError`) and skipped while the rest of the array
still loads in order — deleting the malformed record from the array
leaves the loaded inventory unchanged; top-level malformed JSON yields
an empty inventory rather than a crash. -/
theorem C6_load_skips_malformed (now : Date) (pre post : List Entry) (e : Entry)
    (h : entryMalformed e = true) :
    (∃ r, loadEntry now e = .error r)
    ∧ load_inventory now (some (pre ++ e :: post)) = load_inventory now (some (pre ++ post))
    ∧ load_inventory now none = ⟨[]⟩ := by
  obtain ⟨r, hr⟩ := loadEntry_malformed now e h
  refine ⟨⟨r, hr⟩, ?_, rfl⟩
  simp [load_inventory, load_entries, List.filterMap_append, List.filterMap_cons, hr,
    Except.toOption]

/-- C6 witness: the spec's load scenario — a valid Electronics record
followed by one missing `brand` — skips and reports only the malformed
record, and loading `none` (malformed JSON) yields the empty
inventory. -/
theorem C6_load_witness :
    (∃ r, loadEntry ⟨2025, 1, 1⟩ entryRadioNoBrand = .error r)
    ∧ load_inventory ⟨2025, 1, 1⟩ (some ([entryLaptop] ++ entryRadioNoBrand :: []))
        = load_inventory ⟨2025, 1, 1⟩ (some ([entryLaptop] ++ []))
    ∧ load_inventory ⟨2025, 1, 1⟩ none = ⟨[]⟩ :=
  C6_load_skips_malformed ⟨2025, 1, 1⟩ [entryLaptop] [] entryRadioNoBrand (by decide)

/-- C7: with a well-formed reference date string denoting `d`,
`remove_expired_products` removes exactly the `Grocery` products whose
`expiry_date` is strictly before `d` and returns them in order; all
remaining products keep their relative order, every non-`Grocery`
product survives regardless of its fields, and when nothing is expired
the result is the unchanged inventory plus an empty list, not an
error. -/
theorem C7_remove_expired (inv : Inventory) (s : String) (d now : Date)
    (h : parseDateStrict s = some d) :
    (inv.remove_expired_products s now).2
        = inv.products.filter (fun p => p.isGrocery && p.is_expired d)
    ∧ (inv.remove_expired_products s now).1.products
        = inv.products.filter (fun p => !(p.isGrocery && p.is_expired d))
    ∧ (∀ p ∈ (inv.remove_expired_products s now).2,
        p.isGrocery = true ∧ p.is_expired d = true)
    ∧ (∀ p ∈ inv.products, p.isGrocery = false
        → p ∈ (inv.remove_expired_products s now).1.products)
    ∧ ((∀ p ∈ inv.products, (p.isGrocery && p.is_expired d) = false)
        → (inv.remove_expired_products s now).1 = inv
          ∧ (inv.remove_expired_products s now).2 = []) := by
  have hp : parseDate s now = d := by
    unfold parseDateStrict at h
    unfold parseDate
    rw [h]
  have e2 : (inv.remove_expired_products s now).2
      = inv.products.filter (fun p => p.isGrocery && p.is_expired d) := by
    simp only [Inventory.remove_expired_products, hp]
  have e1 : (inv.remove_expired_products s now).1.products
      = inv.products.filter (fun p => !(p.isGrocery && p.is_expired d)) := by
    simp only [Inventory.remove_expired_products, hp]
  refine ⟨e2, e1, ?_, ?_, ?_⟩
  · intro p hp'
    rw [e2] at hp'
    have h2 := (List.mem_filter.mp hp').2
    rwa [Bool.and_eq_true] at h2
  · intro p hmem hg
    rw [e1]
    exact List.mem_filter.mpr ⟨hmem, by simp [hg]⟩
  · intro hall
    constructor
    · apply Inventory.eq_of_products
      rw [e1]
      exact List.filter_eq_self.mpr (fun p hmem => by simp [hall p hmem])
    · rw [e2]
      exact List.filter_eq_nil_iff.mpr (fun p hmem => by simp [hall p hmem])

/-- C7 witness: the spec's scenario — one `Grocery` with id 2 expiring
`01/01/2020`, swept with reference date `01/01/2025` — returns exactly
that product and empties the inventory. -/
theorem C7_remove_expired_witness :
    (invMilk.remove_expired_products "01/01/2025" ⟨2024, 1, 1⟩).2
        = invMilk.products.filter
            (fun p => p.isGrocery && p.is_expired ⟨2025, 1, 1⟩)
    ∧ (invMilk.remove_expired_products "01/01/2025" ⟨2024, 1, 1⟩).1.products
        = invMilk.products.filter
            (fun p => !(p.isGrocery && p.is_expired ⟨2025, 1, 1⟩))
    ∧ (∀ p ∈ (invMilk.remove_expired_products "01/01/2025" ⟨2024, 1, 1⟩).2,
        p.isGrocery = true ∧ p.is_expired ⟨2025, 1, 1⟩ = true)
    ∧ (∀ p ∈ invMilk.products, p.isGrocery = false
        → p ∈ (invMilk.remove_expired_products "01/01/2025" ⟨2024, 1, 1⟩).1.products)
    ∧ ((∀ p ∈ invMilk.products,
          (p.isGrocery && p.is_expired ⟨2025, 1, 1⟩) = false)
        → (invMilk.remove_expired_products "01/01/2025" ⟨2024, 1, 1⟩).1 = invMilk
          ∧ (invMilk.remove_expired_products "01/01/2025" ⟨2024, 1, 1⟩).2 = []) :=
  C7_remove_expired invMilk "01/01/2025" ⟨2025, 1, 1⟩ ⟨2024, 1, 1⟩ (by decide)

/-- C8: whenever the requested quantity is within stock, `sell(q)`
succeeds and a subsequent `restock(q)` restores the original product —
in particular the original `quantityInStock` — exactly. -/
theorem C8_sell_restock (p : Product) (q : Int) (h : q ≤ p.quantityInStock) :
    ∃ p', p.sell q = .ok p' ∧ p'.restock q = p := by
  cases p with
  | electronics pid nm pr q0 w b =>
    simp only [Product.quantityInStock] at h
    refine ⟨.electronics pid nm pr (q0 - q) w b, ?_, ?_⟩
    · simp only [Product.sell]; rw [if_pos (by omega)]
    · have hq : q0 - q + q = q0 := by omega
      simp only [Product.restock, hq]
  | grocery pid nm pr q0 eds ed =>
    simp only [Product.quantityInStock] at h
    refine ⟨.grocery pid nm pr (q0 - q) eds ed, ?_, ?_⟩
    · simp only [Product.sell]; rw [if_pos (by omega)]
    · have hq : q0 - q + q = q0 := by omega
      simp only [Product.restock, hq]
  | clothing pid nm pr q0 sz mt =>
    simp only [Product.quantityInStock] at h
    refine ⟨.clothing pid nm pr (q0 - q) sz mt, ?_, ?_⟩
    · simp only [Product.sell]; rw [if_pos (by omega)]
    · have hq : q0 - q + q = q0 := by omega
      simp only [Product.restock, hq]

/-- C8 witness: selling 2 of 5 socks and restocking 2 restores the
original product. -/
theorem C8_sell_restock_witness :
    ∃ p', (Product.clothing 7 "sock" 3 5 "L" "wool").sell 2 = .ok p'
      ∧ p'.restock 2 = Product.clothing 7 "sock" 3 5 "L" "wool" :=
  C8_sell_restock (Product.clothing 7 "sock" 3 5 "L" "wool") 2 (by decide)

/-- C9 counterexample: the claim's "a non-positive q is accepted without
error" fails on a reachable product with negative stock (the
constructor validates nothing and `restock` accepts negative amounts):
with stock −1, even `sell(0)` raises `InsufficientStockError`. -/
theorem C9_counterexample :
    (0 : Int) ≤ 0
    ∧ (Product.electronics 1 "x" 1 (-1) 0 "b").sell 0
        = .error ⟨"x", 0, -1⟩ :=
  ⟨by decide, rfl⟩

/-- C9 (amended): for every variant and every integer `q`, `sell(q)`
raises `InsufficientStock` iff `q > quantityInStock`; whenever
`q ≤ quantityInStock` it succeeds and decrements by `q`, so an accepted
negative `q` increases stock by `|q|` — in particular every non-positive
`q` is accepted whenever the stock is non-negative, since no sign check
is performed on the argument. -/
theorem C9_sell_sign_behavior (p : Product) (q : Int) :
    ((∃ r, p.sell q = .error r) ↔ q > p.quantityInStock)
    ∧ (q ≤ p.quantityInStock →
        ∃ p', p.sell q = .ok p' ∧ p'.quantityInStock = p.quantityInStock - q)
    ∧ (q ≤ 0 → 0 ≤ p.quantityInStock →
        ∃ p', p.sell q = .ok p' ∧ p'.quantityInStock = p.quantityInStock + -q) := by
  cases p with
  | electronics pid nm pr q0 w b =>
    refine ⟨⟨?_, ?_⟩, ?_, ?_⟩
    · rintro ⟨r, hr⟩
      simp only [Product.sell, Product.quantityInStock] at hr ⊢
      by_contra hle
      rw [if_pos (by omega)] at hr
      exact absurd hr (by simp)
    · intro hgt
      simp only [Product.quantityInStock] at hgt
      exact ⟨_, by simp only [Product.sell]; rw [if_neg (by omega)]⟩
    · intro hle
      simp only [Product.quantityInStock] at hle ⊢
      refine ⟨.electronics pid nm pr (q0 - q) w b, ?_, rfl⟩
      simp only [Product.sell]; rw [if_pos (by omega)]
    · intro hq hs
      simp only [Product.quantityInStock] at hs ⊢
      refine ⟨.electronics pid nm pr (q0 - q) w b, ?_, ?_⟩
      · simp only [Product.sell]; rw [if_pos (by omega)]
      · simp only [Product.quantityInStock]; omega
  | grocery pid nm pr q0 eds ed =>
    refine ⟨⟨?_, ?_⟩, ?_, ?_⟩
    · rintro ⟨r, hr⟩
      simp only [Product.sell, Product.quantityInStock] at hr ⊢
      by_contra hle
      rw [if_pos (by omega)] at hr
      exact absurd hr (by simp)
    · intro hgt
      simp only [Product.quantityInStock] at hgt
      exact ⟨_, by simp only [Product.sell]; rw [if_neg (by omega)]⟩
    · intro hle
      simp only [Product.quantityInStock] at hle ⊢
      refine ⟨.grocery pid nm pr (q0 - q) eds ed, ?_, rfl⟩
      simp only [Product.sell]; rw [if_pos (by omega)]
    · intro hq hs
      simp only [Product.quantityInStock] at hs ⊢
      refine ⟨.grocery pid nm pr (q0 - q) eds ed, ?_, ?_⟩
      · simp only [Product.sell]; rw [if_pos (by omega)]
      · simp only [Product.quantityInStock]; omega
  | clothing pid nm pr q0 sz mt =>
    refine ⟨⟨?_, ?_⟩, ?_, ?_⟩
    · rintro ⟨r, hr⟩
      simp only [Product.sell, Product.quantityInStock] at hr ⊢
      by_contra hle
      rw [if_pos (by omega)] at hr
      exact absurd hr (by simp)
    · intro hgt
      simp only [Product.quantityInStock] at hgt
      exact ⟨_, by simp only [Product.sell]; rw [if_neg (by omega)]⟩
    · intro hle
      simp only [Product.quantityInStock] at hle ⊢
      refine ⟨.clothing pid nm pr (q0 - q) sz mt, ?_, rfl⟩
      simp only [Product.sell]; rw [if_pos (by omega)]
    · intro hq hs
      simp only [Product.quantityInStock] at hs ⊢
      refine ⟨.clothing pid nm pr (q0 - q) sz mt, ?_, ?_⟩
      · simp only [Product.sell]; rw [if_pos (by omega)]
      · simp only [Product.quantityInStock]; omega

/-- C9 witness: selling −3 of a product with stock 5 is accepted and
raises the stock to 8. -/
theorem C9_sell_sign_witness :
    (-3 : Int) ≤ 0 ∧ (0 : Int) ≤ 5
    ∧ (∃ p', (Product.clothing 1 "cap" 2 5 "S" "felt").sell (-3) = .ok p'
        ∧ p'.quantityInStock = 5 + -(-3)) :=
  ⟨by decide, by decide,
   (C9_sell_sign_behavior (Product.clothing 1 "cap" 2 5 "S" "felt") (-3)).2.2
     (by decide) (by decide)⟩

/-- C10: `restock(amount)` unconditionally adds `amount` (any integer,
with no validation) to `quantityInStock` and modifies no other field on
any variant; in particular a negative amount decreases stock and can
drive it below zero, as the concrete final conjunct shows. -/
theorem C10_restock_unconditional (p : Product) (a : Int) :
    (p.restock a).quantityInStock = p.quantityInStock + a
    ∧ p.eqExceptStock (p.restock a) = true
    ∧ ((Product.electronics 1 "x" 1 0 0 "b").restock (-3)).quantityInStock < 0 := by
  refine ⟨?_, ?_, by decide⟩ <;>
    cases p <;> simp [Product.restock, Product.quantityInStock, Product.eqExceptStock]

end InvSys
